import Mathlib

/-!
Verification of the SendaMeal MCP product-search adapter (src/index.ts).

The file shallowly embeds the four tool handlers registered in
SendaMealMCP.init (search_products, get_product_details,
find_dietary_options, get_recommendations) and the path router of the
default fetch export.

Modelling conventions:
* The external AI-search capability (this.env.AI.autorag) is an explicit
  function argument of type Capability, mapping the request the handler
  builds to an outcome: either a rejection carrying an error message
  (Except.error) or a resolved value (Except.ok).
* A resolved value is Option (Option (List SearchItem)): the outer none
  models a falsy response object, the inner none a falsy results field,
  and a list models an actual results array.  This mirrors the guard
  "if (!results || !results.results || results.results.length === 0)".
* Result item fields are Option String; JavaScript truthiness of a
  string value (undefined, null and the empty string are falsy) is
  modelled by jsOrStr, which falls back both on none and on some "".
* Optional tool parameters are Option values; the JavaScript guard
  "if (meal_type)" on an optional string is truthy exactly when the
  value is present and nonempty.
-/

/-- JavaScript fallback "v || d" for an optional string field:
undefined, null and the empty string are falsy. -/
def jsOrStr (v : Option String) (d : String) : String :=
  match v with
  | none => d
  | some s => if s = "" then d else s

/-- JavaScript fallback chain "a || b || d" used for content-or-snippet. -/
def jsOrStr2 (a b : Option String) (d : String) : String :=
  match a with
  | none => jsOrStr b d
  | some s => if s = "" then jsOrStr b d else s

/-- Shape of one search result item returned by the external capability;
every field may be absent. -/
structure SearchItem where
  title : Option String
  url : Option String
  snippet : Option String
  content : Option String
deriving Repr, DecidableEq

/-- Request passed to this.env.AI.autorag. -/
structure SearchRequest where
  index : String
  query : String
  maxResults : Nat
deriving Repr, DecidableEq

/-- Resolved value of the capability: outer none models a falsy response,
inner none a falsy results field, a list the results array. -/
abbrev AutoragResult := Option (Option (List SearchItem))

/-- Outcome of awaiting the capability: rejection with a message, or a
resolved value. -/
abbrev Outcome := Except String AutoragResult

/-- The external search capability, as seen by a handler. -/
abbrev Capability := SearchRequest → Outcome

/-- One content block of an MCP tool response. -/
structure ContentBlock where
  type : String
  text : String
deriving Repr, DecidableEq

/-- MCP tool response envelope. -/
structure ToolResponse where
  content : List ContentBlock
deriving Repr, DecidableEq

/-- Response with a single text block, the shape every handler returns. -/
def textResponse (t : String) : ToolResponse :=
  ⟨[⟨"text", t⟩]⟩

/-- The fixed index identifier used in every autorag call. -/
def autoragIndex : String := "cool-bush-e0f4"

/-- JavaScript Array.prototype.join with a separator. -/
def joinSep (sep : String) : List String → String
  | [] => ""
  | [a] => a
  | a :: b :: rest => a ++ sep ++ joinSep sep (b :: rest)

/-- results.results.map((item, index) => fmt(index, item)).join(sep). -/
def numberItems (fmt : Nat → SearchItem → String) (l : List SearchItem) : String :=
  joinSep "\n\n" (l.enum.map (fun p => fmt p.1 p.2))

/-! Tool 1: search_products -/

/-- Request built by search_products; max_results is optional with zod
default 10. -/
def search_products_request (query : String) (max_results : Option Nat) : SearchRequest :=
  ⟨autoragIndex, query, max_results.getD 10⟩

/-- Per-item line of search_products. -/
def search_products_item (i : Nat) (item : SearchItem) : String :=
  toString (i + 1) ++ ". " ++ jsOrStr item.title "Untitled" ++ "\n   URL: " ++
    jsOrStr item.url "N/A" ++ "\n   " ++ jsOrStr item.snippet "No description available"

/-- Body of the search_products handler after the capability resolved or
rejected. -/
def search_products_handle (query : String) (outcome : Outcome) : ToolResponse :=
  match outcome with
  | .error msg => textResponse ("Error searching products: " ++ msg)
  | .ok none => textResponse ("No products found for query: \"" ++ query ++ "\"")
  | .ok (some none) => textResponse ("No products found for query: \"" ++ query ++ "\"")
  | .ok (some (some l)) =>
    if l = [] then
      textResponse ("No products found for query: \"" ++ query ++ "\"")
    else
      textResponse ("Found " ++ toString l.length ++ " products:\n\n" ++
        numberItems search_products_item l)

/-- Full search_products handler. -/
def search_products (query : String) (max_results : Option Nat) (cap : Capability) : ToolResponse :=
  search_products_handle query (cap (search_products_request query max_results))

/-! Tool 2: get_product_details -/

/-- Request built by get_product_details: fixed maxResults 3. -/
def get_product_details_request (product_name : String) : SearchRequest :=
  ⟨autoragIndex, product_name, 3⟩

/-- Detail text rendered from the first result item. -/
def product_details_text (product : SearchItem) : String :=
  "Product: " ++ jsOrStr product.title "Untitled" ++ "\nURL: " ++
    jsOrStr product.url "N/A" ++ "\n\nDescription:\n" ++
    jsOrStr2 product.content product.snippet "No description available"

/-- Body of the get_product_details handler. -/
def get_product_details_handle (product_name : String) (outcome : Outcome) : ToolResponse :=
  match outcome with
  | .error msg => textResponse ("Error fetching product details: " ++ msg)
  | .ok none => textResponse ("Product not found: \"" ++ product_name ++ "\"")
  | .ok (some none) => textResponse ("Product not found: \"" ++ product_name ++ "\"")
  | .ok (some (some [])) => textResponse ("Product not found: \"" ++ product_name ++ "\"")
  | .ok (some (some (product :: _))) => textResponse (product_details_text product)

/-- Full get_product_details handler. -/
def get_product_details (product_name : String) (cap : Capability) : ToolResponse :=
  get_product_details_handle product_name (cap (get_product_details_request product_name))

/-! Tool 3: find_dietary_options -/

/-- Query built by find_dietary_options: the restriction, suffixed with a
space and the meal type when that is present and nonempty (the guard
"if (meal_type)"). -/
def find_dietary_query (dietary_restriction : String) (meal_type : Option String) : String :=
  match meal_type with
  | some m => if m = "" then dietary_restriction else dietary_restriction ++ (" " ++ m)
  | none => dietary_restriction

/-- Conditional " for {meal_type}" fragment used in both the empty message
and the header. -/
def meal_type_tag (meal_type : Option String) : String :=
  match meal_type with
  | some m => if m = "" then "" else " for " ++ m
  | none => ""

/-- Request built by find_dietary_options: fixed maxResults 10. -/
def find_dietary_options_request (dietary_restriction : String) (meal_type : Option String) :
    SearchRequest :=
  ⟨autoragIndex, find_dietary_query dietary_restriction meal_type, 10⟩

/-- Per-item line of find_dietary_options. -/
def find_dietary_item (i : Nat) (item : SearchItem) : String :=
  toString (i + 1) ++ ". " ++ jsOrStr item.title "Untitled" ++ "\n   " ++ jsOrStr item.url "N/A"

/-- Body of the find_dietary_options handler. -/
def find_dietary_options_handle (dietary_restriction : String) (meal_type : Option String)
    (outcome : Outcome) : ToolResponse :=
  match outcome with
  | .error msg => textResponse ("Error finding dietary options: " ++ msg)
  | .ok none =>
    textResponse ("No " ++ dietary_restriction ++ " products found" ++ meal_type_tag meal_type)
  | .ok (some none) =>
    textResponse ("No " ++ dietary_restriction ++ " products found" ++ meal_type_tag meal_type)
  | .ok (some (some l)) =>
    if l = [] then
      textResponse ("No " ++ dietary_restriction ++ " products found" ++ meal_type_tag meal_type)
    else
      textResponse ("Found " ++ toString l.length ++ " " ++ dietary_restriction ++ " products" ++
        meal_type_tag meal_type ++ ":\n\n" ++ numberItems find_dietary_item l)

/-- Full find_dietary_options handler. -/
def find_dietary_options (dietary_restriction : String) (meal_type : Option String)
    (cap : Capability) : ToolResponse :=
  find_dietary_options_handle dietary_restriction meal_type
    (cap (find_dietary_options_request dietary_restriction meal_type))

/-! Tool 4: get_recommendations -/

/-- Query built by get_recommendations: "{occasion} gift meal", suffixed
with a space and the preferences when present and nonempty. -/
def get_recommendations_query (occasion : String) (preferences : Option String) : String :=
  match preferences with
  | some p => if p = "" then occasion ++ " gift meal" else (occasion ++ " gift meal") ++ (" " ++ p)
  | none => occasion ++ " gift meal"

/-- Conditional " ({preferences})" fragment of the recommendations header. -/
def preferences_tag (preferences : Option String) : String :=
  match preferences with
  | some p => if p = "" then "" else " (" ++ p ++ ")"
  | none => ""

/-- Request built by get_recommendations: fixed maxResults 5. -/
def get_recommendations_request (occasion : String) (preferences : Option String) :
    SearchRequest :=
  ⟨autoragIndex, get_recommendations_query occasion preferences, 5⟩

/-- Per-item line of get_recommendations; note the snippet falls back to
the empty string, not to a placeholder. -/
def get_recommendations_item (i : Nat) (item : SearchItem) : String :=
  toString (i + 1) ++ ". " ++ jsOrStr item.title "Untitled" ++ "\n   " ++
    jsOrStr item.url "N/A" ++ "\n   " ++ jsOrStr item.snippet ""

/-- Body of the get_recommendations handler. -/
def get_recommendations_handle (occasion : String) (preferences : Option String)
    (outcome : Outcome) : ToolResponse :=
  match outcome with
  | .error msg => textResponse ("Error getting recommendations: " ++ msg)
  | .ok none => textResponse ("No recommendations found for " ++ occasion)
  | .ok (some none) => textResponse ("No recommendations found for " ++ occasion)
  | .ok (some (some l)) =>
    if l = [] then
      textResponse ("No recommendations found for " ++ occasion)
    else
      textResponse ("Top recommendations for " ++ occasion ++ preferences_tag preferences ++
        ":\n\n" ++ numberItems get_recommendations_item l)

/-- Full get_recommendations handler. -/
def get_recommendations (occasion : String) (preferences : Option String) (cap : Capability) :
    ToolResponse :=
  get_recommendations_handle occasion preferences
    (cap (get_recommendations_request occasion preferences))

/-! Transport router (default fetch export) -/

/-- Plain HTTP response produced by the router itself.  The body of the
health check is created with status defaulting to 200 and an explicit
Content-Type header; the 404 branch sets status 404 and no explicit
Content-Type. -/
structure HttpResponse where
  status : Nat
  contentType : Option String
  body : String
deriving Repr, DecidableEq

/-- Result of one dispatch of the router: hand off to the SSE transport,
hand off to the MCP transport, or answer directly. -/
inductive RouteResult where
  | sseTransport
  | mcpTransport
  | plain (r : HttpResponse)
deriving Repr, DecidableEq

/-- Endpoints object of the status document. -/
structure Endpoints where
  sse : String
  mcp : String
deriving Repr, DecidableEq

/-- Status document returned on the health-check paths. -/
structure StatusDoc where
  name : String
  version : String
  status : String
  endpoints : Endpoints
deriving Repr, DecidableEq

/-- The fixed status document of the health check. -/
def statusDoc : StatusDoc :=
  ⟨"SendaMeal MCP Server", "1.0.0", "healthy", ⟨"/sse", "/mcp"⟩⟩

/-- JSON string literal (the embedded values need no escaping). -/
def jsonString (s : String) : String := "\"" ++ s ++ "\""

/-- JSON.stringify of the status document, key order as in the object
literal. -/
def statusDocJson (d : StatusDoc) : String :=
  "\x7b\"name\":" ++ jsonString d.name ++ ",\"version\":" ++ jsonString d.version ++
    ",\"status\":" ++ jsonString d.status ++ ",\"endpoints\":\x7b\"sse\":" ++
    jsonString d.endpoints.sse ++ ",\"mcp\":" ++ jsonString d.endpoints.mcp ++ "\x7d\x7d"

/-- The router of the default export, as a function of url.pathname. -/
def fetch (pathname : String) : RouteResult :=
  if pathname = "/sse" ∨ pathname = "/sse/message" then .sseTransport
  else if pathname = "/mcp" then .mcpTransport
  else if pathname = "/" ∨ pathname = "/health" then
    .plain ⟨200, some "application/json", statusDocJson statusDoc⟩
  else .plain ⟨404, none, "Not found"⟩

/-! Helper lemmas -/

/-- Every outcome makes search_products_handle emit one text block. -/
lemma search_products_handle_shape (q : String) (o : Outcome) :
    (search_products_handle q o).content.map ContentBlock.type = ["text"] := by
  rcases o with msg | r
  · rfl
  · rcases r with _ | r
    · rfl
    rcases r with _ | l
    · rfl
    unfold search_products_handle
    split <;> try rfl
    split <;> rfl

/-- Every outcome makes get_product_details_handle emit one text block. -/
lemma get_product_details_handle_shape (pn : String) (o : Outcome) :
    (get_product_details_handle pn o).content.map ContentBlock.type = ["text"] := by
  rcases o with msg | r
  · rfl
  · rcases r with _ | r
    · rfl
    rcases r with _ | l
    · rfl
    rcases l with _ | ⟨a, l⟩ <;> rfl

/-- Every outcome makes find_dietary_options_handle emit one text block. -/
lemma find_dietary_options_handle_shape (r : String) (mt : Option String) (o : Outcome) :
    (find_dietary_options_handle r mt o).content.map ContentBlock.type = ["text"] := by
  rcases o with msg | res
  · rfl
  · rcases res with _ | res
    · rfl
    rcases res with _ | l
    · rfl
    unfold find_dietary_options_handle
    split <;> try rfl
    split <;> rfl

/-- Every outcome makes get_recommendations_handle emit one text block. -/
lemma get_recommendations_handle_shape (occ : String) (p : Option String) (o : Outcome) :
    (get_recommendations_handle occ p o).content.map ContentBlock.type = ["text"] := by
  rcases o with msg | res
  · rfl
  · rcases res with _ | res
    · rfl
    rcases res with _ | l
    · rfl
    unfold get_recommendations_handle
    split <;> try rfl
    split <;> rfl

/-! Claim theorems -/

/-- C2: for every one of the four tools, every schema-valid input and
every behaviour of the external search capability (any resolved value,
missing or empty results included, or a rejection), the handler returns
a response whose content is exactly one block of type "text"; the
handlers are total functions, so no error escapes. -/
theorem every_tool_single_text_block (q : String) (mr : Option Nat) (pn r occ : String)
    (mt p : Option String) (cap : Capability) :
    (search_products q mr cap).content.map ContentBlock.type = ["text"] ∧
    (get_product_details pn cap).content.map ContentBlock.type = ["text"] ∧
    (find_dietary_options r mt cap).content.map ContentBlock.type = ["text"] ∧
    (get_recommendations occ p cap).content.map ContentBlock.type = ["text"] :=
  ⟨search_products_handle_shape q _, get_product_details_handle_shape pn _,
    find_dietary_options_handle_shape r mt _, get_recommendations_handle_shape occ p _⟩

/-- C3: if the capability rejects with message M during a search_products
invocation, the single text block is exactly "Error searching products: "
followed by M. -/
theorem search_products_error_text (q : String) (mr : Option Nat) (M : String)
    (cap : Capability) (h : cap (search_products_request q mr) = .error M) :
    (search_products q mr cap).content = [⟨"text", "Error searching products: " ++ M⟩] := by
  unfold search_products
  rw [h]
  rfl

/-- Witness for C3 at query "pizza" and a capability that rejects with
message "network down". -/
theorem search_products_error_text_witness :
    (search_products "pizza" none (fun _ => .error "network down")).content =
      [⟨"text", "Error searching products: network down"⟩] := by
  have h := search_products_error_text "pizza" none "network down"
    (fun _ => .error "network down") rfl
  exact h

/-- C1 counterexample: in get_recommendations, an item whose snippet is
absent renders with an empty snippet segment (the line template ends in
three spaces followed by nothing), not with the placeholder
"No description available". -/
theorem get_recommendations_absent_snippet_counterexample :
    (get_recommendations "x" none
        (fun _ => .ok (some (some [⟨none, none, none, none⟩])))).content =
      [⟨"text", "Top recommendations for x:\n\n1. Untitled\n   N/A\n   "⟩] ∧
    ("Top recommendations for x:\n\n1. Untitled\n   N/A\n   " : String) ≠
      "Top recommendations for x:\n\n1. Untitled\n   N/A\n   No description available" := by
  exact ⟨by rfl, by decide⟩

/-- C1 amended: for every rendered item whose fields are absent (or empty,
which JavaScript treats the same), the title renders as "Untitled", the
url as "N/A", and the snippet or content as "No description available" in
search_products and get_product_details; in get_recommendations, however,
the absent snippet renders as the empty string, leaving an empty final
segment in that line. -/
theorem absent_fields_render_placeholders (n : Nat) (t u s c : Option String)
    (ht : t = none ∨ t = some "") (hu : u = none ∨ u = some "")
    (hs : s = none ∨ s = some "") (hc : c = none ∨ c = some "") :
    search_products_item n ⟨t, u, s, c⟩ =
      toString (n + 1) ++ ". " ++ "Untitled" ++ "\n   URL: " ++ "N/A" ++ "\n   " ++
        "No description available" ∧
    product_details_text ⟨t, u, s, c⟩ =
      "Product: " ++ "Untitled" ++ "\nURL: " ++ "N/A" ++ "\n\nDescription:\n" ++
        "No description available" ∧
    find_dietary_item n ⟨t, u, s, c⟩ =
      toString (n + 1) ++ ". " ++ "Untitled" ++ "\n   " ++ "N/A" ∧
    get_recommendations_item n ⟨t, u, s, c⟩ =
      toString (n + 1) ++ ". " ++ "Untitled" ++ "\n   " ++ "N/A" ++ "\n   " ++ "" := by
  have ht' : jsOrStr t "Untitled" = "Untitled" := by rcases ht with rfl | rfl <;> rfl
  have hu' : jsOrStr u "N/A" = "N/A" := by rcases hu with rfl | rfl <;> rfl
  have hs1 : jsOrStr s "No description available" = "No description available" := by
    rcases hs with rfl | rfl <;> rfl
  have hs2 : jsOrStr s "" = "" := by rcases hs with rfl | rfl <;> rfl
  have hcs : jsOrStr2 c s "No description available" = "No description available" := by
    rcases hc with rfl | rfl <;> rcases hs with rfl | rfl <;> rfl
  refine ⟨?_, ?_, ?_, ?_⟩
  · unfold search_products_item
    rw [ht', hu', hs1]
  · unfold product_details_text
    rw [ht', hu', hcs]
  · unfold find_dietary_item
    rw [ht', hu']
  · unfold get_recommendations_item
    rw [ht', hu', hs2]

/-- Witness for the amended C1 at index 0 and the all-absent item. -/
theorem absent_fields_render_placeholders_witness :
    search_products_item 0 ⟨none, none, none, none⟩ =
      "1. Untitled\n   URL: N/A\n   No description available" ∧
    product_details_text ⟨none, none, none, none⟩ =
      "Product: Untitled\nURL: N/A\n\nDescription:\nNo description available" ∧
    find_dietary_item 0 ⟨none, none, none, none⟩ = "1. Untitled\n   N/A" ∧
    get_recommendations_item 0 ⟨none, none, none, none⟩ = "1. Untitled\n   N/A\n   " := by
  have h := absent_fields_render_placeholders 0 none none none none
    (Or.inl rfl) (Or.inl rfl) (Or.inl rfl) (Or.inl rfl)
  exact h

/-- C4 counterexample: preferences supplied as the empty string is NOT
followed by a space and the preferences; the query stays
"x gift meal" rather than becoming "x gift meal " with a trailing
space. -/
theorem get_recommendations_query_counterexample :
    get_recommendations_query "x" (some "") = "x gift meal" ∧
    ("x gift meal" : String) ≠ "x" ++ " gift meal" ++ (" " ++ "") := by
  exact ⟨rfl, by decide⟩

/-- C4 amended: the query passed to the capability is the occasion
followed by " gift meal", and, when preferences is supplied and
nonempty, further followed by a space and the preferences. -/
theorem get_recommendations_query_spec (occ p : String) (h : p ≠ "") :
    get_recommendations_query occ none = occ ++ " gift meal" ∧
    get_recommendations_query occ (some p) = (occ ++ " gift meal") ++ (" " ++ p) := by
  refine ⟨rfl, ?_⟩
  simp only [get_recommendations_query]
  rw [if_neg h]

/-- Witness for the amended C4: occasion "birthday" with preferences
"chocolate" yields exactly "birthday gift meal chocolate". -/
theorem get_recommendations_query_spec_witness :
    get_recommendations_query "birthday" none = "birthday gift meal" ∧
    get_recommendations_query "birthday" (some "chocolate") = "birthday gift meal chocolate" := by
  have h := get_recommendations_query_spec "birthday" "chocolate" (by decide)
  exact ⟨h.1, h.2.trans (by rfl)⟩

/-- C5: find_dietary_options called with dietary_restriction "vegan" and
no meal_type, when the capability resolves with exactly two items, yields
a single text block beginning with "Found 2 vegan products:" and listing
the two items in order, the first prefixed "1. " and the second
prefixed "2. ". -/
theorem find_dietary_options_two_results (i1 i2 : SearchItem) (cap : Capability)
    (h : cap (find_dietary_options_request "vegan" none) = .ok (some (some [i1, i2]))) :
    find_dietary_options "vegan" none cap =
      textResponse ("Found 2 vegan products:\n\n" ++
        (("1. " ++ jsOrStr i1.title "Untitled" ++ "\n   " ++ jsOrStr i1.url "N/A") ++ "\n\n" ++
         ("2. " ++ jsOrStr i2.title "Untitled" ++ "\n   " ++ jsOrStr i2.url "N/A"))) := by
  have h1 : find_dietary_item 0 i1 =
      "1. " ++ jsOrStr i1.title "Untitled" ++ "\n   " ++ jsOrStr i1.url "N/A" := rfl
  have h2 : find_dietary_item 1 i2 =
      "2. " ++ jsOrStr i2.title "Untitled" ++ "\n   " ++ jsOrStr i2.url "N/A" := rfl
  unfold find_dietary_options
  rw [h]
  show textResponse ("Found " ++ toString (2 : Nat) ++ " " ++ "vegan" ++ " products" ++
      meal_type_tag none ++ ":\n\n" ++ numberItems find_dietary_item [i1, i2]) = _
  rw [← h1, ← h2]
  rfl

/-- Witness for C5 at two concrete items. -/
theorem find_dietary_options_two_results_witness :
    find_dietary_options "vegan" none
        (fun _ => .ok (some (some
          [⟨some "Vegan Bowl", some "https://a", none, none⟩, ⟨none, none, none, none⟩]))) =
      textResponse
        "Found 2 vegan products:\n\n1. Vegan Bowl\n   https://a\n\n2. Untitled\n   N/A" := by
  have h := find_dietary_options_two_results
    ⟨some "Vegan Bowl", some "https://a", none, none⟩ ⟨none, none, none, none⟩
    (fun _ => .ok (some (some
      [⟨some "Vegan Bowl", some "https://a", none, none⟩, ⟨none, none, none, none⟩]))) rfl
  exact h.trans (by rfl)

/-- C6: for every product_name, if the capability resolves with a missing
response, a missing results field, or an empty results sequence,
get_product_details answers with the single text block
"Product not found: " followed by the product name in double quotes. -/
theorem get_product_details_not_found (pn : String) (r : AutoragResult)
    (hr : r = none ∨ r = some none ∨ r = some (some [])) (cap : Capability)
    (hc : cap (get_product_details_request pn) = .ok r) :
    (get_product_details pn cap).content =
      [⟨"text", "Product not found: \"" ++ pn ++ "\""⟩] := by
  unfold get_product_details
  rw [hc]
  rcases hr with rfl | rfl | rfl <;> rfl

/-- Witness for C6 at product_name "Unicorn Cake" and an empty results
sequence. -/
theorem get_product_details_not_found_witness :
    (get_product_details "Unicorn Cake" (fun _ => .ok (some (some [])))).content =
      [⟨"text", "Product not found: \"Unicorn Cake\""⟩] := by
  have h := get_product_details_not_found "Unicorn Cake" (some (some []))
    (Or.inr (Or.inr rfl)) (fun _ => .ok (some (some []))) rfl
  exact h

/-- C7: each tool calls the capability with its tool-specific limit:
search_products passes the caller-supplied max_results (10 when
omitted), get_product_details always 3, find_dietary_options always 10,
get_recommendations always 5, regardless of any caller input; the index
identifier is the fixed one in every case. -/
theorem tool_result_limits (q pn r occ : String) (k : Nat) (mt p : Option String) :
    (search_products_request q none).maxResults = 10 ∧
    (search_products_request q (some k)).maxResults = k ∧
    (get_product_details_request pn).maxResults = 3 ∧
    (find_dietary_options_request r mt).maxResults = 10 ∧
    (get_recommendations_request occ p).maxResults = 5 ∧
    (search_products_request q (some k)).index = autoragIndex ∧
    (get_product_details_request pn).index = autoragIndex ∧
    (find_dietary_options_request r mt).index = autoragIndex ∧
    (get_recommendations_request occ p).index = autoragIndex :=
  ⟨rfl, rfl, rfl, rfl, rfl, rfl, rfl, rfl, rfl⟩

/-- C8: the paths "/" and "/health" receive identical responses: status
200, Content-Type application/json, and the serialized status document
whose keys are exactly name, version, status (value "healthy") and
endpoints with sse "/sse" and mcp "/mcp". -/
theorem health_check_response :
    fetch "/" = fetch "/health" ∧
    fetch "/" = .plain ⟨200, some "application/json", statusDocJson statusDoc⟩ ∧
    statusDoc.status = "healthy" ∧
    statusDoc.endpoints.sse = "/sse" ∧
    statusDoc.endpoints.mcp = "/mcp" ∧
    statusDocJson statusDoc =
      "\x7b\"name\":\"SendaMeal MCP Server\",\"version\":\"1.0.0\",\"status\":\"healthy\"," ++
        "\"endpoints\":\x7b\"sse\":\"/sse\",\"mcp\":\"/mcp\"\x7d\x7d" := by
  refine ⟨by rfl, by rfl, rfl, rfl, rfl, by rfl⟩

/-- C9: every path other than "/sse", "/sse/message", "/mcp", "/" and
"/health" is answered by the router with status 404 and the plain-text
body "Not found"; fetch is a total function, so exactly one dispatch
branch is taken for any path. -/
theorem unknown_path_not_found (pathname : String)
    (h1 : pathname ≠ "/sse") (h2 : pathname ≠ "/sse/message") (h3 : pathname ≠ "/mcp")
    (h4 : pathname ≠ "/") (h5 : pathname ≠ "/health") :
    fetch pathname = .plain ⟨404, none, "Not found"⟩ := by
  unfold fetch
  rw [if_neg (not_or.mpr ⟨h1, h2⟩), if_neg h3, if_neg (not_or.mpr ⟨h4, h5⟩)]

/-- Witness for C9 at the path "/nope". -/
theorem unknown_path_not_found_witness :
    fetch "/nope" = .plain ⟨404, none, "Not found"⟩ :=
  unknown_path_not_found "/nope" (by decide) (by decide) (by decide) (by decide) (by decide)

/-- C10: supplying meal_type as the empty string to find_dietary_options,
or preferences as the empty string to get_recommendations, produces the
same capability request (hence the same query) and the same tool response
under every capability behaviour as omitting the parameter. -/
theorem empty_optional_params_ignored (r occ : String) (cap : Capability) :
    find_dietary_options_request r (some "") = find_dietary_options_request r none ∧
    find_dietary_options r (some "") cap = find_dietary_options r none cap ∧
    get_recommendations_request occ (some "") = get_recommendations_request occ none ∧
    get_recommendations occ (some "") cap = get_recommendations occ none cap := by
  refine ⟨rfl, ?_, rfl, ?_⟩ <;> rfl
